import Mathlib

/-!
# Verification of the weather-monitor forecast analysis engine

Shallow embedding of `weather_monitor.py`: the time-series analyzers
(`analyser_nedbør`, `analyser_temperatur`), the threshold evaluation in
`sjekk_lokasjon` and `main`, the hazard deduplication in
`hent_farevarsler_norge`, and the grouped-alert sorting in the
`send_gruppert_varsel_*` functions.

Python floats are modelled as rationals (`ℚ`); JSON fields that may be
absent, explicitly `null`, or a number are modelled by a three-state type
so that `dict.get(key, default)` semantics are captured exactly.
-/

namespace WeatherMonitor

/-- A JSON numeric field as seen through a Python dict: the key may be
absent, present with value `null`, or present with a number. -/
inductive JsonNum where
  | missing
  | null
  | num (q : ℚ)
deriving DecidableEq

/-- Python `d.get(key, default)` for a numeric field: an absent key yields
the default, an explicit `null` yields `None`, a number yields itself. -/
def JsonNum.getD (v : JsonNum) (d : ℚ) : Option ℚ :=
  match v with
  | .missing => some d
  | .null => none
  | .num q => some q

/-- Python `d.get(key)` (no default): absent and `null` both give `None`. -/
def JsonNum.get? (v : JsonNum) : Option ℚ :=
  match v with
  | .missing => none
  | .null => none
  | .num q => some q

/-- Is the field an explicit `null`? -/
def JsonNum.isNull (v : JsonNum) : Bool :=
  match v with
  | .null => true
  | _ => false

/-- One timeseries entry of a Met.no forecast document: the
`data.next_1_hours.details.precipitation_amount` field and the
`data.instant.details.air_temperature` field. A missing intermediate
object collapses to a missing leaf field, which `JsonNum.missing`
captures. -/
structure ForecastEntry where
  precipitation_amount : JsonNum
  air_temperature : JsonNum
deriving DecidableEq

/-- Precipitation summary returned by `analyser_nedbør`. -/
structure NedborSummary where
  max_per_time : ℚ
  total_24t : ℚ
  total_periode : ℚ
  timer_dekket : ℕ
deriving DecidableEq

/-- The per-entry precipitation lookup
`entry.get("data", {}).get("next_1_hours", {}).get("details", {}).get("precipitation_amount", 0.0)`. -/
def nedborOf (e : ForecastEntry) : Option ℚ :=
  e.precipitation_amount.getD 0

/-- `analyser_nedbør`: loops over all entries accumulating (skipping those
whose lookup returned `None`) the running maximum (from `0.0`), the total,
and the count `timer_med_data`; a second loop over the first 24 entries
accumulates `total_nedbør_24t`. -/
def analyser_nedbor (timeseries : List ForecastEntry) : NedborSummary :=
  let vals := timeseries.filterMap nedborOf
  { max_per_time := vals.foldl max 0
    total_24t := ((timeseries.take 24).filterMap nedborOf).sum
    total_periode := vals.sum
    timer_dekket := vals.length }

/-- Temperature summary returned by `analyser_temperatur`. -/
structure TempSummary where
  min : ℚ
  max : ℚ
  sving : ℚ
  min_24t : ℚ
  max_24t : ℚ
  sving_24t : ℚ
  timer_dekket : ℕ
deriving DecidableEq

/-- Python `min` over a nonempty list (0 is never used by the code on an
empty list; the analyzer guards emptiness itself). -/
def listMin : List ℚ → ℚ
  | [] => 0
  | x :: xs => xs.foldl min x

/-- Python `max` over a nonempty list. -/
def listMax : List ℚ → ℚ
  | [] => 0
  | x :: xs => xs.foldl max x

/-- The non-null temperatures of a sequence of entries, in order
(`air_temperature` is looked up without a default). -/
def tempsOf (timeseries : List ForecastEntry) : List ℚ :=
  timeseries.filterMap (fun e => e.air_temperature.get?)

/-- `analyser_temperatur`: collects the non-null temperatures of all
entries (`temperaturer_alle`) and of the entries with index `< 24`
(`temperaturer_24t`); returns the all-zero summary when no temperature
exists, otherwise min/max/swing over each collection, with the 24h
figures defaulting to 0 when no temperature lies in the first 24
entries. -/
def analyser_temperatur (timeseries : List ForecastEntry) : TempSummary :=
  let alle := tempsOf timeseries
  let t24 := tempsOf (timeseries.take 24)
  if alle.isEmpty then
    { min := 0, max := 0, sving := 0, min_24t := 0, max_24t := 0, sving_24t := 0
      timer_dekket := 0 }
  else
    { min := listMin alle
      max := listMax alle
      sving := listMax alle - listMin alle
      min_24t := if t24.isEmpty then 0 else listMin t24
      max_24t := if t24.isEmpty then 0 else listMax t24
      sving_24t := if t24.isEmpty then 0 else listMax t24 - listMin t24
      timer_dekket := alle.length }

/-- The three configured thresholds (`THRESHOLDS`). -/
structure Thresholds where
  nedbor_mm_per_time : ℚ
  nedbor_mm_per_dag : ℚ
  temp_sving_grader : ℚ
deriving DecidableEq

/-- One line of a per-location alert message, identified by which branch
of `sjekk_lokasjon` produced it together with the numbers it renders. -/
inductive Varsel where
  | kraftigNedbor (verdi : ℚ)
  | myeNedbor (verdi : ℚ)
  | totalNedborPeriode (timer : ℕ) (verdi : ℚ)
  | tempSving (lo hi diff : ℚ)
deriving DecidableEq

/-- The alert lines `sjekk_lokasjon` collects for one location (the
`varsler` list, before the trailing forecast-info line): hourly
precipitation, 24h precipitation, the informational extended-total line,
and the temperature-swing line whose rendered range depends on which
window had the strictly larger swing. -/
def sjekk_lokasjon_varsler (timeseries : List ForecastEntry) (thresholds : Thresholds) :
    List Varsel :=
  let nedbor := analyser_nedbor timeseries
  let temp := analyser_temperatur timeseries
  (if nedbor.max_per_time ≥ thresholds.nedbor_mm_per_time then
      [Varsel.kraftigNedbor nedbor.max_per_time] else [])
  ++ (if nedbor.total_24t ≥ thresholds.nedbor_mm_per_dag then
      [Varsel.myeNedbor nedbor.total_24t] else [])
  ++ (if nedbor.total_periode > nedbor.total_24t * (3 / 2 : ℚ) then
      [Varsel.totalNedborPeriode nedbor.timer_dekket nedbor.total_periode] else [])
  ++ (if max temp.sving_24t temp.sving ≥ thresholds.temp_sving_grader then
        (if temp.sving > temp.sving_24t then
          [Varsel.tempSving temp.min temp.max temp.sving]
        else
          [Varsel.tempSving temp.min_24t temp.max_24t temp.sving_24t])
      else [])

/-- Recognize the temperature-swing line. -/
def Varsel.isTempSving : Varsel → Bool
  | .tempSving _ _ _ => true
  | _ => false

end WeatherMonitor

namespace WeatherMonitor

/-! ## C7: empty input yields the all-zero summaries -/

/-- **C7.** For the empty forecast entry sequence, `analyser_nedbør` and
`analyser_temperatur` return summaries in which every numeric field is 0
and both hours-covered counters are 0, as defined values rather than
errors. -/
theorem empty_input_zero_state :
    analyser_nedbor [] =
      { max_per_time := 0, total_24t := 0, total_periode := 0, timer_dekket := 0 } ∧
    analyser_temperatur [] =
      { min := 0, max := 0, sving := 0, min_24t := 0, max_24t := 0, sving_24t := 0
        timer_dekket := 0 } := by
  constructor <;> rfl

end WeatherMonitor

namespace WeatherMonitor

/-- A forecast entry with both fields absent. -/
def blankEntry : ForecastEntry :=
  { precipitation_amount := JsonNum.missing, air_temperature := JsonNum.missing }

/-- A forecast entry carrying only a temperature. -/
def tempEntry (q : ℚ) : ForecastEntry :=
  { precipitation_amount := JsonNum.missing, air_temperature := JsonNum.num q }

/-- A forecast entry carrying only a precipitation amount. -/
def precipEntry (q : ℚ) : ForecastEntry :=
  { precipitation_amount := JsonNum.num q, air_temperature := JsonNum.missing }

/-! ## C4: what `timer_dekket` (hours_covered) counts -/

/-- Following the spec's words, for comparison with the code: an entry
"carried a non-null precipitation value", i.e. the precipitation field is
present with a number. -/
def specCarriesNonNullPrecip (e : ForecastEntry) : Bool :=
  match e.precipitation_amount with
  | .num _ => true
  | _ => false

/-- **C4 (counterexample).** An entry with no precipitation field at all
IS counted by the code: the defaulted lookup returns `0.0`, which is not
`None`, so `timer_dekket` is 1 while the count of entries carrying a
non-null precipitation value is 0. -/
theorem hours_covered_counts_missing_field :
    (analyser_nedbor [blankEntry]).timer_dekket = 1 ∧
    ([blankEntry].filter specCarriesNonNullPrecip).length = 0 := by
  constructor <;> rfl

/-- **C4 (amended).** `timer_dekket` equals the number of entries whose
precipitation lookup is non-null: entries with an explicit `null` are
excluded, but entries missing the field entirely default to `0.0` and are
counted. -/
theorem hours_covered_counts_non_null_lookups (timeseries : List ForecastEntry) :
    (analyser_nedbor timeseries).timer_dekket =
      (timeseries.filter (fun e => !e.precipitation_amount.isNull)).length := by
  induction timeseries with
  | nil => rfl
  | cons e ts ih =>
    simp only [analyser_nedbor] at ih ⊢
    cases h : e.precipitation_amount <;>
      simp [List.filterMap_cons, List.filter_cons, nedborOf, JsonNum.getD, JsonNum.isNull, h, ih]

/-! ## C6: the 24h precipitation total is bounded by the full-window total -/

/-- **C6.** For every forecast document whose precipitation values are
non-negative and whose full window has at least 24 entries,
`total_24t ≤ total_periode`. -/
theorem total_24t_le_total_periode (timeseries : List ForecastEntry)
    (_h24 : 24 ≤ timeseries.length)
    (hpos : ∀ e ∈ timeseries, ∀ q : ℚ, e.precipitation_amount = JsonNum.num q → 0 ≤ q) :
    (analyser_nedbor timeseries).total_24t ≤ (analyser_nedbor timeseries).total_periode := by
  simp only [analyser_nedbor]
  conv_rhs => rw [← List.take_append_drop 24 timeseries]
  rw [List.filterMap_append, List.sum_append]
  have hnn : 0 ≤ ((timeseries.drop 24).filterMap nedborOf).sum := by
    apply List.sum_nonneg
    intro x hx
    rcases List.mem_filterMap.mp hx with ⟨e, he, hev⟩
    have hmem : e ∈ timeseries := (List.drop_sublist 24 timeseries).subset he
    cases hcase : e.precipitation_amount with
    | missing =>
      simp only [nedborOf, JsonNum.getD, hcase, Option.some.injEq] at hev
      exact hev ▸ le_refl 0
    | null => simp [nedborOf, JsonNum.getD, hcase] at hev
    | num q =>
      simp only [nedborOf, JsonNum.getD, hcase, Option.some.injEq] at hev
      exact hev ▸ hpos e hmem q hcase
  linarith

/-- A 24-entry document with 1 mm of precipitation each hour, for
exercising `total_24t_le_total_periode`. -/
def allOnesDay : List ForecastEntry := List.replicate 24 (precipEntry 1)

theorem total_24t_le_total_periode_witness :
    (24 ≤ allOnesDay.length ∧
      ∀ e ∈ allOnesDay, ∀ q : ℚ, e.precipitation_amount = JsonNum.num q → 0 ≤ q) ∧
    (analyser_nedbor allOnesDay).total_24t ≤ (analyser_nedbor allOnesDay).total_periode := by
  have hpos : ∀ e ∈ allOnesDay, ∀ q : ℚ, e.precipitation_amount = JsonNum.num q → 0 ≤ q := by
    intro e he q hq
    rcases List.eq_of_mem_replicate he with rfl
    have h1 : (1 : ℚ) = q := by simpa [precipEntry] using hq
    rw [← h1]
    norm_num
  exact ⟨⟨by simp [allOnesDay], hpos⟩,
    total_24t_le_total_periode allOnesDay (by simp [allOnesDay]) hpos⟩

/-! ## C10: no temperatures in the first 24 entries -/

theorem foldl_min_le (l : List ℚ) : ∀ x : ℚ, l.foldl min x ≤ x := by
  induction l with
  | nil => intro x; exact le_refl x
  | cons y ys ih => intro x; exact le_trans (ih (min x y)) (min_le_left x y)

theorem le_foldl_max (l : List ℚ) : ∀ x : ℚ, x ≤ l.foldl max x := by
  induction l with
  | nil => intro x; exact le_refl x
  | cons y ys ih => intro x; exact le_trans (le_max_left x y) (ih (max x y))

theorem listMin_le_listMax (l : List ℚ) (h : l ≠ []) : listMin l ≤ listMax l := by
  cases l with
  | nil => exact absurd rfl h
  | cons x xs => exact le_trans (foldl_min_le xs x) (le_foldl_max xs x)

/-- **C10.** If a document has at least one non-null temperature but none
among its first 24 entries, the 24h temperature figures are all 0 (not
derived from later entries), and the effective swing
`max(sving_24t, sving)` equals the full-window swing. -/
theorem no_temps_in_first_24 (timeseries : List ForecastEntry)
    (h24 : tempsOf (timeseries.take 24) = [])
    (hall : tempsOf timeseries ≠ []) :
    (analyser_temperatur timeseries).min_24t = 0 ∧
    (analyser_temperatur timeseries).max_24t = 0 ∧
    (analyser_temperatur timeseries).sving_24t = 0 ∧
    max (analyser_temperatur timeseries).sving_24t (analyser_temperatur timeseries).sving =
      (analyser_temperatur timeseries).sving := by
  have hne : (tempsOf timeseries).isEmpty = false :=
    List.isEmpty_eq_false.mpr hall
  have h24e : (tempsOf (timeseries.take 24)).isEmpty = true := by
    rw [h24]; rfl
  have hsw : 0 ≤ listMax (tempsOf timeseries) - listMin (tempsOf timeseries) :=
    sub_nonneg.mpr (listMin_le_listMax _ hall)
  simp only [analyser_temperatur, hne, h24e, Bool.false_eq_true, if_false, if_true]
  exact ⟨trivial, trivial, trivial, max_eq_right hsw⟩

/-- A document with temperatures only after the first 24 entries. -/
def lateTempsDoc : List ForecastEntry :=
  List.replicate 24 blankEntry ++ [tempEntry 7, tempEntry 3]

theorem no_temps_in_first_24_witness :
    (tempsOf (lateTempsDoc.take 24) = [] ∧ tempsOf lateTempsDoc ≠ []) ∧
    ((analyser_temperatur lateTempsDoc).min_24t = 0 ∧
      (analyser_temperatur lateTempsDoc).max_24t = 0 ∧
      (analyser_temperatur lateTempsDoc).sving_24t = 0 ∧
      max (analyser_temperatur lateTempsDoc).sving_24t (analyser_temperatur lateTempsDoc).sving =
        (analyser_temperatur lateTempsDoc).sving) :=
  ⟨⟨by decide, by decide⟩, no_temps_in_first_24 lateTempsDoc (by decide) (by decide)⟩

end WeatherMonitor

namespace WeatherMonitor

/-! ## The accumulators of `main` and the grouped-alert senders -/

/-- One element of `main`'s `kraftig_nedbor_kommuner` / `mye_nedbor_kommuner`
lists (coordinates omitted: they are presentation-only). -/
structure NedborKommune where
  navn : String
  verdi : ℚ
deriving DecidableEq

/-- One element of `main`'s `temp_sving_kommuner` list. -/
structure TempKommune where
  navn : String
  min : ℚ
  max : ℚ
  sving : ℚ
deriving DecidableEq

/-- `main`'s first accumulator: for each location (in configuration order,
paired with its fetched document or `none` on fetch failure), append an
entry when `max_per_time` meets the hourly threshold. -/
def kraftig_nedbor_kommuner (lokasjoner : List (String × Option (List ForecastEntry)))
    (thresholds : Thresholds) : List NedborKommune :=
  lokasjoner.filterMap fun l =>
    l.2.bind fun d =>
      let nedbor := analyser_nedbor d
      if nedbor.max_per_time ≥ thresholds.nedbor_mm_per_time then
        some { navn := l.1, verdi := nedbor.max_per_time }
      else none

/-- `main`'s second accumulator: entries whose `total_24t` meets the daily
threshold. -/
def mye_nedbor_kommuner (lokasjoner : List (String × Option (List ForecastEntry)))
    (thresholds : Thresholds) : List NedborKommune :=
  lokasjoner.filterMap fun l =>
    l.2.bind fun d =>
      let nedbor := analyser_nedbor d
      if nedbor.total_24t ≥ thresholds.nedbor_mm_per_dag then
        some { navn := l.1, verdi := nedbor.total_24t }
      else none

/-- `main`'s third accumulator: entries whose effective swing
`max(sving_24t, sving)` meets the swing threshold; the stored min/max come
from the full window exactly when its swing is strictly larger. -/
def temp_sving_kommuner (lokasjoner : List (String × Option (List ForecastEntry)))
    (thresholds : Thresholds) : List TempKommune :=
  lokasjoner.filterMap fun l =>
    l.2.bind fun d =>
      let temp := analyser_temperatur d
      let max_sving := max temp.sving_24t temp.sving
      if max_sving ≥ thresholds.temp_sving_grader then
        some { navn := l.1
               min := if temp.sving > temp.sving_24t then temp.min else temp.min_24t
               max := if temp.sving > temp.sving_24t then temp.max else temp.max_24t
               sving := max_sving }
      else none

/-- `sorted(kommuner, key=lambda x: x["verdi"], reverse=True)`: Python's
sort is stable, so this is the stable descending sort by `verdi`, modelled
by insertion sort (any stable sort produces the same list). -/
def sorter_nedbor_desc (kommuner : List NedborKommune) : List NedborKommune :=
  kommuner.insertionSort (fun a b => b.verdi ≤ a.verdi)

/-- `sorted(kommuner, key=lambda x: x["sving"], reverse=True)`, stable. -/
def sorter_temp_desc (kommuner : List TempKommune) : List TempKommune :=
  kommuner.insertionSort (fun a b => b.sving ≤ a.sving)

/-- The lines of the three grouped messages `main` sends, in order: the
hourly-precipitation group, the daily-precipitation group and the
temperature-swing group, each sorted descending by its comparison value
with one bullet per location. -/
def grupperte_varsler (lokasjoner : List (String × Option (List ForecastEntry)))
    (thresholds : Thresholds) : List Varsel :=
  (sorter_nedbor_desc (kraftig_nedbor_kommuner lokasjoner thresholds)).map
      (fun k => Varsel.kraftigNedbor k.verdi)
    ++ (sorter_nedbor_desc (mye_nedbor_kommuner lokasjoner thresholds)).map
      (fun k => Varsel.myeNedbor k.verdi)
    ++ (sorter_temp_desc (temp_sving_kommuner lokasjoner thresholds)).map
      (fun k => Varsel.tempSving k.min k.max k.sving)

end WeatherMonitor

namespace WeatherMonitor

/-! ## C1: which window supplies the rendered temperature range -/

/-- A document whose only temperature sits after hour 24 and whose
full-window swing therefore ties the (defaulted-to-0) 24h swing. -/
def tieDoc : List ForecastEntry := List.replicate 24 blankEntry ++ [tempEntry 5]

/-- Thresholds 5 mm/h, 30 mm/24h and a 0 degree swing threshold. -/
def zeroSwingThresholds : Thresholds :=
  { nedbor_mm_per_time := 5, nedbor_mm_per_dag := 30, temp_sving_grader := 0 }

/-- The default thresholds of the script: 5 mm/h, 30 mm/24h, 15 degrees. -/
def defaultThresholds : Thresholds :=
  { nedbor_mm_per_time := 5, nedbor_mm_per_dag := 30, temp_sving_grader := 15 }

theorem filterMap_nedborOf_of_missing (l : List ForecastEntry)
    (h : ∀ e ∈ l, e.precipitation_amount = JsonNum.missing) :
    l.filterMap nedborOf = List.replicate l.length 0 := by
  induction l with
  | nil => rfl
  | cons e es ih =>
    have he : e.precipitation_amount = JsonNum.missing := h e (List.mem_cons_self e es)
    simp only [List.filterMap_cons, nedborOf, he, JsonNum.getD, List.length_cons,
      List.replicate_succ]
    exact congrArg (0 :: ·) (ih fun x hx => h x (List.mem_cons_of_mem e hx))

theorem foldl_max_replicate_zero : ∀ n : ℕ, (List.replicate n (0 : ℚ)).foldl max 0 = 0 := by
  intro n
  induction n with
  | zero => rfl
  | succ m ih => simpa [List.replicate_succ, max_self] using ih

/-- A document all of whose entries lack the precipitation field analyzes
to zero precipitation with every hour counted. -/
theorem analyser_nedbor_of_missing (l : List ForecastEntry)
    (h : ∀ e ∈ l, e.precipitation_amount = JsonNum.missing) :
    analyser_nedbor l =
      { max_per_time := 0, total_24t := 0, total_periode := 0, timer_dekket := l.length } := by
  have hvals := filterMap_nedborOf_of_missing l h
  have hvals24 := filterMap_nedborOf_of_missing (l.take 24)
    (fun e he => h e (List.mem_of_mem_take he))
  simp only [analyser_nedbor, hvals, hvals24]
  simp [foldl_max_replicate_zero, List.sum_replicate]

theorem analyser_temperatur_tieDoc :
    analyser_temperatur tieDoc =
      { min := 5, max := 5, sving := 0, min_24t := 0, max_24t := 0, sving_24t := 0
        timer_dekket := 1 } := by
  have h1 : tempsOf tieDoc = [5] := by
    simp [tieDoc, tempsOf, List.filterMap_append, List.filterMap_replicate, blankEntry,
      tempEntry, JsonNum.get?]
  have h2 : tempsOf (tieDoc.take 24) = [] := by
    have : tieDoc.take 24 = List.replicate 24 blankEntry := by
      simp [tieDoc, List.take_append_eq_append_take]
    simp [this, tempsOf, List.filterMap_replicate, blankEntry, JsonNum.get?]
  simp only [analyser_temperatur, h1, h2]
  norm_num [listMin, listMax]

/-- **C1 (counterexample).** With a swing threshold of 0, `tieDoc` ties
(`sving = sving_24t = 0`) and a `temp_swing` finding is emitted, but the
rendered range is the 24h figures `0 → 0`, not the full-window figures
`5 → 5`: on a tie the code takes the `else` branch of
`temp["sving"] > temp["sving_24t"]` and emits the 24h-window range. -/
theorem temp_sving_tie_emits_24h_range :
    (analyser_temperatur tieDoc).sving = (analyser_temperatur tieDoc).sving_24t ∧
    sjekk_lokasjon_varsler tieDoc zeroSwingThresholds = [Varsel.tempSving 0 0 0] ∧
    (analyser_temperatur tieDoc).min = 5 ∧ (analyser_temperatur tieDoc).max = 5 ∧
    Varsel.tempSving 5 5 0 ∉ sjekk_lokasjon_varsler tieDoc zeroSwingThresholds := by
  have hn : analyser_nedbor tieDoc =
      { max_per_time := 0, total_24t := 0, total_periode := 0, timer_dekket := 25 } := by
    have := analyser_nedbor_of_missing tieDoc (by
      intro e he
      rcases List.mem_append.mp he with h | h
      · rw [List.eq_of_mem_replicate h]; rfl
      · rw [List.mem_singleton.mp h]; rfl)
    simpa [tieDoc] using this
  refine ⟨?_, ?_, ?_, ?_, ?_⟩ <;>
    norm_num [sjekk_lokasjon_varsler, analyser_temperatur_tieDoc, hn, zeroSwingThresholds]

/-- **C1 (amended).** When a `temp_swing` finding is emitted, the rendered
min/max range comes from the full window exactly when the full-window
swing is strictly larger than the 24h swing; on a tie the 24h-window
figures are emitted. This holds both for the per-location message of
`sjekk_lokasjon` and for the record `main` accumulates. -/
theorem temp_sving_range_selection (timeseries : List ForecastEntry) (thresholds : Thresholds)
    (h : max (analyser_temperatur timeseries).sving_24t (analyser_temperatur timeseries).sving ≥
      thresholds.temp_sving_grader) :
    ((sjekk_lokasjon_varsler timeseries thresholds).filter Varsel.isTempSving =
      (if (analyser_temperatur timeseries).sving > (analyser_temperatur timeseries).sving_24t then
        [Varsel.tempSving (analyser_temperatur timeseries).min
          (analyser_temperatur timeseries).max (analyser_temperatur timeseries).sving]
      else
        [Varsel.tempSving (analyser_temperatur timeseries).min_24t
          (analyser_temperatur timeseries).max_24t (analyser_temperatur timeseries).sving_24t])) ∧
    ∀ navn : String,
      temp_sving_kommuner [(navn, some timeseries)] thresholds =
        [{ navn := navn
           min := if (analyser_temperatur timeseries).sving >
               (analyser_temperatur timeseries).sving_24t then
             (analyser_temperatur timeseries).min else (analyser_temperatur timeseries).min_24t
           max := if (analyser_temperatur timeseries).sving >
               (analyser_temperatur timeseries).sving_24t then
             (analyser_temperatur timeseries).max else (analyser_temperatur timeseries).max_24t
           sving := max (analyser_temperatur timeseries).sving_24t
             (analyser_temperatur timeseries).sving }] := by
  have hfk : ∀ (c : Prop) (_ : Decidable c) (v : ℚ),
      (if c then [Varsel.kraftigNedbor v] else []).filter Varsel.isTempSving = [] := by
    intro c hc v
    split <;> rfl
  have hfm : ∀ (c : Prop) (_ : Decidable c) (v : ℚ),
      (if c then [Varsel.myeNedbor v] else []).filter Varsel.isTempSving = [] := by
    intro c hc v
    split <;> rfl
  have hft : ∀ (c : Prop) (_ : Decidable c) (t : ℕ) (v : ℚ),
      (if c then [Varsel.totalNedborPeriode t v] else []).filter Varsel.isTempSving = [] := by
    intro c hc t v
    split <;> rfl
  constructor
  · simp only [sjekk_lokasjon_varsler, List.filter_append, hfk, hfm, hft, List.nil_append,
      if_pos h]
    by_cases hgt : (analyser_temperatur timeseries).sving >
        (analyser_temperatur timeseries).sving_24t <;>
      simp [hgt, Varsel.isTempSving]
  · intro navn
    simp only [temp_sving_kommuner, List.filterMap_cons, List.filterMap_nil, Option.some_bind,
      if_pos h]

/-- A document whose first 24 hours swing from 0 °C to 20 °C, equalling
the full-window swing: a tie where the emitted 24h figures coincide with
the full-window ones. -/
def bigSwingDoc : List ForecastEntry := [tempEntry 0, tempEntry 20]

theorem analyser_temperatur_bigSwingDoc :
    analyser_temperatur bigSwingDoc =
      { min := 0, max := 20, sving := 20, min_24t := 0, max_24t := 20, sving_24t := 20
        timer_dekket := 2 } := by
  have h1 : tempsOf bigSwingDoc = [0, 20] := by
    simp [bigSwingDoc, tempsOf, tempEntry, JsonNum.get?]
  have h2 : tempsOf (bigSwingDoc.take 24) = [0, 20] := by
    simp [bigSwingDoc, tempsOf, tempEntry, JsonNum.get?]
  simp only [analyser_temperatur, h1, h2]
  norm_num [listMin, listMax, min_def, max_def]

theorem temp_sving_range_selection_witness :
    (max (analyser_temperatur bigSwingDoc).sving_24t (analyser_temperatur bigSwingDoc).sving ≥
      defaultThresholds.temp_sving_grader) ∧
    ((sjekk_lokasjon_varsler bigSwingDoc defaultThresholds).filter Varsel.isTempSving =
      (if (analyser_temperatur bigSwingDoc).sving > (analyser_temperatur bigSwingDoc).sving_24t then
        [Varsel.tempSving (analyser_temperatur bigSwingDoc).min
          (analyser_temperatur bigSwingDoc).max (analyser_temperatur bigSwingDoc).sving]
      else
        [Varsel.tempSving (analyser_temperatur bigSwingDoc).min_24t
          (analyser_temperatur bigSwingDoc).max_24t
          (analyser_temperatur bigSwingDoc).sving_24t])) :=
  ⟨by norm_num [analyser_temperatur_bigSwingDoc, defaultThresholds],
    (temp_sving_range_selection bigSwingDoc defaultThresholds
      (by norm_num [analyser_temperatur_bigSwingDoc, defaultThresholds])).1⟩

/-! ## C8: threshold comparisons are `≥`, not `>` -/

/-- **C8.** A value exactly equal to its threshold triggers the finding:
the hourly-precipitation line is emitted iff `max_per_time ≥` the hourly
threshold, the daily line iff `total_24t ≥` the daily threshold, and the
temperature line iff `max(sving_24t, sving) ≥` the swing threshold. -/
theorem threshold_boundary_is_ge (timeseries : List ForecastEntry) (thresholds : Thresholds) :
    ((Varsel.kraftigNedbor (analyser_nedbor timeseries).max_per_time ∈
        sjekk_lokasjon_varsler timeseries thresholds) ↔
      (analyser_nedbor timeseries).max_per_time ≥ thresholds.nedbor_mm_per_time) ∧
    ((Varsel.myeNedbor (analyser_nedbor timeseries).total_24t ∈
        sjekk_lokasjon_varsler timeseries thresholds) ↔
      (analyser_nedbor timeseries).total_24t ≥ thresholds.nedbor_mm_per_dag) ∧
    ((∃ lo hi diff, Varsel.tempSving lo hi diff ∈
        sjekk_lokasjon_varsler timeseries thresholds) ↔
      max (analyser_temperatur timeseries).sving_24t (analyser_temperatur timeseries).sving ≥
        thresholds.temp_sving_grader) := by
  by_cases h1 : (analyser_nedbor timeseries).max_per_time ≥ thresholds.nedbor_mm_per_time <;>
  by_cases h2 : (analyser_nedbor timeseries).total_24t ≥ thresholds.nedbor_mm_per_dag <;>
  by_cases h3 : (analyser_nedbor timeseries).total_periode >
    (analyser_nedbor timeseries).total_24t * (3 / 2 : ℚ) <;>
  by_cases h4 : max (analyser_temperatur timeseries).sving_24t
    (analyser_temperatur timeseries).sving ≥ thresholds.temp_sving_grader <;>
  by_cases h5 : (analyser_temperatur timeseries).sving >
    (analyser_temperatur timeseries).sving_24t <;>
    simp [sjekk_lokasjon_varsler, h1, h2, h3, h4, h5]

/-! ## C5: the extended-total note is per-location only -/

/-- **C5.** The informational extended-total line is part of a location's
own message iff `total_periode > total_24t × 1.5` (strictly), and no such
line ever occurs in the three cross-location grouped messages. -/
theorem extended_total_note_is_local (timeseries : List ForecastEntry) (thresholds : Thresholds)
    (lokasjoner : List (String × Option (List ForecastEntry))) :
    ((∃ t v, Varsel.totalNedborPeriode t v ∈ sjekk_lokasjon_varsler timeseries thresholds) ↔
      (analyser_nedbor timeseries).total_periode >
        (analyser_nedbor timeseries).total_24t * (3 / 2 : ℚ)) ∧
    ∀ t v, Varsel.totalNedborPeriode t v ∉ grupperte_varsler lokasjoner thresholds := by
  constructor
  · by_cases h1 : (analyser_nedbor timeseries).max_per_time ≥ thresholds.nedbor_mm_per_time <;>
    by_cases h2 : (analyser_nedbor timeseries).total_24t ≥ thresholds.nedbor_mm_per_dag <;>
    by_cases h3 : (analyser_nedbor timeseries).total_periode >
      (analyser_nedbor timeseries).total_24t * (3 / 2 : ℚ) <;>
    by_cases h4 : max (analyser_temperatur timeseries).sving_24t
      (analyser_temperatur timeseries).sving ≥ thresholds.temp_sving_grader <;>
    by_cases h5 : (analyser_temperatur timeseries).sving >
      (analyser_temperatur timeseries).sving_24t <;>
      simp [sjekk_lokasjon_varsler, h1, h2, h3, h4, h5]
  · intro t v
    simp [grupperte_varsler, List.mem_append, List.mem_map]

end WeatherMonitor

namespace WeatherMonitor

/-! ## The hazard deduplicator of `hent_farevarsler_norge` -/

/-- A JSON string field: absent, explicit `null`, or a string. -/
inductive JsonStr where
  | missing
  | null
  | str (s : String)
deriving DecidableEq

/-- Rendering of `props.get(key, '')` inside the f-string that builds the
dedup key: an absent key renders as the supplied default `""`, an explicit
`null` is the Python `None` object and renders as `"None"`, a string
renders as itself. -/
def JsonStr.fstr (v : JsonStr) : String :=
  match v with
  | .missing => ""
  | .null => "None"
  | .str s => s

/-- Python truthiness of `props.get(key)`: only a non-empty string is
truthy; an absent key, `null`, and `""` are falsy. -/
def JsonStr.truthy (v : JsonStr) : Bool :=
  match v with
  | .str s => s != ""
  | _ => false

/-- The properties of one MetAlerts feature that the dedup logic reads. -/
structure HazardFeature where
  event : JsonStr
  severity : JsonStr
  onset : JsonStr
  description : JsonStr
  county : JsonStr
  municipalityId : JsonStr
deriving DecidableEq

/-- The dedup key `f"{props.get('event', '')}_{props.get('severity', '')}_{props.get('onset', '')}"`. -/
def varselId (p : HazardFeature) : String :=
  p.event.fstr ++ "_" ++ p.severity.fstr ++ "_" ++ p.onset.fstr

/-- The filter `props.get("county") or props.get("MunicipalityId")`. -/
def harRegionTag (p : HazardFeature) : Bool :=
  p.county.truthy || p.municipalityId.truthy

/-- The filtering/dedup loop of `hent_farevarsler_norge`: walk the
features in order, skip those without a regional tag, skip those whose
key is already in `sett_varsler`, keep the rest while recording their
keys. -/
def relevanteVarsler : List HazardFeature → List String → List HazardFeature
  | [], _ => []
  | f :: fs, sett =>
    if harRegionTag f then
      if sett.contains (varselId f) then relevanteVarsler fs sett
      else f :: relevanteVarsler fs (varselId f :: sett)
    else relevanteVarsler fs sett

/-- `hent_farevarsler_norge` after the fetch: the deduplicated
region-tagged features, or `None` when none remain. -/
def hent_farevarsler_norge (features : List HazardFeature) : Option (List HazardFeature) :=
  let r := relevanteVarsler features []
  if r.isEmpty then none else some r

/-- Following the spec's words, for comparison with the code: the identity
key as the tuple `(event_type, severity, onset_time)`. -/
def specIdentityKey (p : HazardFeature) : String × String × String :=
  (p.event.fstr, p.severity.fstr, p.onset.fstr)

/-- Following the spec's words, for comparison with the code: keep the
first occurrence per tuple key among region-tagged records. -/
def specDedupTuple : List HazardFeature → List (String × String × String) → List HazardFeature
  | [], _ => []
  | f :: fs, sett =>
    if harRegionTag f then
      if sett.contains (specIdentityKey f) then specDedupTuple fs sett
      else f :: specDedupTuple fs (specIdentityKey f :: sett)
    else specDedupTuple fs sett

/-- First-occurrence-per-key semantics stated directly: keep the head and
recurse on the tail purged of records sharing the head's key. -/
def keepFirstByKey (l : List HazardFeature) : List HazardFeature :=
  match l with
  | [] => []
  | x :: xs => x :: keepFirstByKey (xs.filter fun y => varselId y != varselId x)
termination_by l.length
decreasing_by
  simp only [List.length_cons]
  exact Nat.lt_succ_of_le (List.length_filter_le _ xs)

/-- A region-tagged record whose event name contains an underscore. -/
def underscoreRec1 : HazardFeature :=
  { event := JsonStr.str "a_b", severity := JsonStr.str "c", onset := JsonStr.str "d"
    description := JsonStr.str "first", county := JsonStr.str "03"
    municipalityId := JsonStr.missing }

/-- A region-tagged record with a different tuple whose joined key
collides with `underscoreRec1`'s. -/
def underscoreRec2 : HazardFeature :=
  { event := JsonStr.str "a", severity := JsonStr.str "b_c", onset := JsonStr.str "d"
    description := JsonStr.str "second", county := JsonStr.str "03"
    municipalityId := JsonStr.missing }

/-- **C3 (counterexample).** Two region-tagged records with distinct
`(event, severity, onset)` tuples are collapsed to the first one: the code
keys on the underscore-joined string, and `"a_b"＿"c"` collides with
`"a"＿"b_c"`. Deduplication keyed on the tuple, as the claim states it,
would keep both records. -/
theorem dedup_tuple_key_counterexample :
    specIdentityKey underscoreRec1 ≠ specIdentityKey underscoreRec2 ∧
    hent_farevarsler_norge [underscoreRec1, underscoreRec2] = some [underscoreRec1] ∧
    specDedupTuple [underscoreRec1, underscoreRec2] [] =
      [underscoreRec1, underscoreRec2] := by
  refine ⟨by decide, by decide, by decide⟩

theorem relevanteVarsler_eq_keepFirst (l : List HazardFeature) :
    ∀ sett : List String,
      relevanteVarsler l sett =
        keepFirstByKey ((l.filter harRegionTag).filter
          fun y => !(sett.contains (varselId y))) := by
  induction l with
  | nil => intro sett; simp [relevanteVarsler, keepFirstByKey]
  | cons f fs ih =>
    intro sett
    by_cases hr : harRegionTag f = true
    · by_cases hc : sett.contains (varselId f) = true
      · rw [relevanteVarsler, if_pos hr, if_pos hc, ih sett,
          List.filter_cons_of_pos hr, List.filter_cons_of_neg (by simpa using hc)]
      · have hm : varselId f ∉ sett := by simpa using hc
        rw [relevanteVarsler, if_pos hr, if_neg hc, ih (varselId f :: sett),
          List.filter_cons_of_pos hr, List.filter_cons_of_pos (by simp [hm]),
          keepFirstByKey]
        congr 2
        rw [List.filter_filter, List.filter_filter, List.filter_filter]
        apply List.filter_congr
        intro a _
        simp only [List.contains_cons, Bool.not_or, Bool.and_assoc, bne, beq_eq_decide]
    · have hrf : harRegionTag f = false := by simpa using hr
      rw [relevanteVarsler, if_neg (by simp [hrf]), ih sett,
        List.filter_cons_of_neg (by simp [hrf])]

/-- **C3 (amended).** The deduplicator drops every record lacking a
regional association and, among the rest, keeps exactly the first
occurrence per underscore-joined `event_severity_onset` string key (not
per tuple), preserving first-seen order; in particular two region-tagged
records differing only in description collapse to the first-seen one,
since their joined keys agree. -/
theorem dedup_keeps_first_per_joined_key (features : List HazardFeature) :
    relevanteVarsler features [] = keepFirstByKey (features.filter harRegionTag) ∧
    ∀ r1 r2 : HazardFeature, harRegionTag r1 = true → harRegionTag r2 = true →
      r1.event = r2.event → r1.severity = r2.severity → r1.onset = r2.onset →
      hent_farevarsler_norge [r1, r2] = some [r1] := by
  constructor
  · rw [relevanteVarsler_eq_keepFirst features []]
    simp
  · intro r1 r2 h1 h2 he hs ho
    have hkey : varselId r2 = varselId r1 := by
      simp [varselId, he, hs, ho]
    simp [hent_farevarsler_norge, relevanteVarsler, h1, h2, hkey, List.contains_cons]

/-- A region-tagged gale warning. -/
def galeRec1 : HazardFeature :=
  { event := JsonStr.str "gale", severity := JsonStr.str "Moderate"
    onset := JsonStr.str "2026-01-01T00:00:00Z", description := JsonStr.str "windy"
    county := JsonStr.str "03", municipalityId := JsonStr.missing }

/-- The same gale warning with a different description. -/
def galeRec2 : HazardFeature :=
  { event := JsonStr.str "gale", severity := JsonStr.str "Moderate"
    onset := JsonStr.str "2026-01-01T00:00:00Z", description := JsonStr.str "very windy"
    county := JsonStr.str "03", municipalityId := JsonStr.missing }

theorem dedup_keeps_first_per_joined_key_witness :
    (harRegionTag galeRec1 = true ∧ harRegionTag galeRec2 = true ∧
      galeRec1.event = galeRec2.event ∧ galeRec1.severity = galeRec2.severity ∧
      galeRec1.onset = galeRec2.onset) ∧
    hent_farevarsler_norge [galeRec1, galeRec2] = some [galeRec1] :=
  ⟨⟨by decide, by decide, rfl, rfl, rfl⟩,
    (dedup_keeps_first_per_joined_key [galeRec1, galeRec2]).2 galeRec1 galeRec2
      (by decide) (by decide) rfl rfl rfl⟩

/-- **C9.** The dedup identity is the underscore-joined string
`event + "_" + severity + "_" + onset`: two region-tagged records collapse
to one exactly when their joined strings are equal, and there exist
records with distinct `(event_type, severity, onset_time)` tuples (fields
themselves containing underscores) that are nevertheless collapsed. -/
theorem dedup_identity_is_joined_string :
    (∀ r1 r2 : HazardFeature, harRegionTag r1 = true → harRegionTag r2 = true →
      (hent_farevarsler_norge [r1, r2] = some [r1] ↔ varselId r1 = varselId r2)) ∧
    ∃ r1 r2 : HazardFeature, harRegionTag r1 = true ∧ harRegionTag r2 = true ∧
      specIdentityKey r1 ≠ specIdentityKey r2 ∧
      hent_farevarsler_norge [r1, r2] = some [r1] := by
  constructor
  · intro r1 r2 h1 h2
    by_cases hk : varselId r2 = varselId r1
    · simp [hent_farevarsler_norge, relevanteVarsler, h1, h2, hk, List.contains_cons,
        eq_comm]
    · have hkb : (varselId r2 == varselId r1) = false := by
        simp [hk]
      simp only [hent_farevarsler_norge, relevanteVarsler, h1, h2, hkb, List.contains_cons,
        if_true, if_false, Bool.false_or]
      constructor
      · intro hcol
        exact absurd hcol (by simp [hk])
      · intro heq
        exact absurd heq.symm hk
  · exact ⟨underscoreRec1, underscoreRec2, by decide, by decide, by decide, by decide⟩

theorem dedup_identity_is_joined_string_witness :
    harRegionTag underscoreRec1 = true ∧ harRegionTag underscoreRec2 = true ∧
    (hent_farevarsler_norge [underscoreRec1, underscoreRec2] = some [underscoreRec1] ↔
      varselId underscoreRec1 = varselId underscoreRec2) :=
  ⟨by decide, by decide,
    dedup_identity_is_joined_string.1 underscoreRec1 underscoreRec2 (by decide) (by decide)⟩

end WeatherMonitor

namespace WeatherMonitor

/-! ## C2: grouped alerts sorted descending, ties in configuration order -/

theorem filter_orderedInsert_of_key_eq {α : Type} (key : α → ℚ) (v : ℚ) (x : α)
    (hx : key x = v) :
    ∀ l : List α,
      (l.orderedInsert (fun a b => key b ≤ key a) x).filter (fun k => key k == v) =
        x :: l.filter (fun k => key k == v) := by
  intro l
  induction l with
  | nil => simp [List.orderedInsert, hx]
  | cons y ys ih =>
    by_cases hle : key y ≤ key x
    · rw [List.orderedInsert, if_pos hle, List.filter_cons_of_pos (by simp [hx])]
    · have hky : (key y == v) = false := by
        simp only [beq_eq_false_iff_ne, ne_eq]
        intro h
        exact hle (le_of_eq (h.trans hx.symm))
      rw [List.orderedInsert, if_neg hle, List.filter_cons_of_neg (by simp [hky]), ih,
        List.filter_cons_of_neg (by simp [hky])]

theorem filter_orderedInsert_of_key_ne {α : Type} (key : α → ℚ) (v : ℚ) (x : α)
    (hx : key x ≠ v) :
    ∀ l : List α,
      (l.orderedInsert (fun a b => key b ≤ key a) x).filter (fun k => key k == v) =
        l.filter (fun k => key k == v) := by
  intro l
  induction l with
  | nil => simp [List.orderedInsert, hx]
  | cons y ys ih =>
    by_cases hle : key y ≤ key x
    · rw [List.orderedInsert, if_pos hle, List.filter_cons_of_neg (by simp [hx])]
    · rw [List.orderedInsert, if_neg hle]
      by_cases hky : (key y == v) = true
      · rw [List.filter_cons_of_pos (p := fun k => key k == v) hky, ih,
          List.filter_cons_of_pos (p := fun k => key k == v) hky]
      · rw [List.filter_cons_of_neg (by simpa using hky), ih,
          List.filter_cons_of_neg (by simpa using hky)]

/-- A stable sort moves no element across an equal-keyed one: for every
key value, the sorted list restricted to that value is the input list
restricted to that value, in the original order. -/
theorem filter_insertionSort_by_key {α : Type} (key : α → ℚ) (v : ℚ) :
    ∀ l : List α,
      ((l.insertionSort (fun a b => key b ≤ key a)).filter (fun k => key k == v)) =
        l.filter (fun k => key k == v) := by
  intro l
  induction l with
  | nil => rfl
  | cons x xs ih =>
    by_cases hx : key x = v
    · rw [List.insertionSort, filter_orderedInsert_of_key_eq key v x hx, ih,
        List.filter_cons_of_pos (by simp [hx])]
    · rw [List.insertionSort, filter_orderedInsert_of_key_ne key v x hx, ih,
        List.filter_cons_of_neg (by simp [hx])]

/-- **C2.** For every group of per-location findings, the aggregator's
sort is a permutation of the group, descending in the group's comparison
value (`verdi` for the two precipitation kinds, `sving` for temperature),
and stable: for each value the locations carrying it keep their original
configuration order. In particular, configuration order `[A, B, C]` with
values `10, 25, 25` sorts to `[B, C, A]`. -/
theorem grouped_sort_desc_stable :
    (∀ ks : List NedborKommune,
      List.Perm (sorter_nedbor_desc ks) ks ∧
      (sorter_nedbor_desc ks).Sorted (fun a b => b.verdi ≤ a.verdi) ∧
      ∀ v : ℚ, (sorter_nedbor_desc ks).filter (fun k => k.verdi == v) =
        ks.filter (fun k => k.verdi == v)) ∧
    (∀ ks : List TempKommune,
      List.Perm (sorter_temp_desc ks) ks ∧
      (sorter_temp_desc ks).Sorted (fun a b => b.sving ≤ a.sving) ∧
      ∀ v : ℚ, (sorter_temp_desc ks).filter (fun k => k.sving == v) =
        ks.filter (fun k => k.sving == v)) ∧
    sorter_nedbor_desc
        [{ navn := "A", verdi := 10 }, { navn := "B", verdi := 25 },
          { navn := "C", verdi := 25 }] =
      [{ navn := "B", verdi := 25 }, { navn := "C", verdi := 25 },
        { navn := "A", verdi := 10 }] := by
  haveI h1 : IsTotal NedborKommune (fun a b => b.verdi ≤ a.verdi) :=
    ⟨fun a b => le_total b.verdi a.verdi⟩
  haveI h2 : IsTrans NedborKommune (fun a b => b.verdi ≤ a.verdi) :=
    ⟨fun _ _ _ hab hbc => le_trans hbc hab⟩
  haveI h3 : IsTotal TempKommune (fun a b => b.sving ≤ a.sving) :=
    ⟨fun a b => le_total b.sving a.sving⟩
  haveI h4 : IsTrans TempKommune (fun a b => b.sving ≤ a.sving) :=
    ⟨fun _ _ _ hab hbc => le_trans hbc hab⟩
  refine ⟨fun ks => ⟨?_, ?_, fun v => ?_⟩, fun ks => ⟨?_, ?_, fun v => ?_⟩, ?_⟩
  · exact List.perm_insertionSort _ ks
  · exact List.sorted_insertionSort _ ks
  · exact filter_insertionSort_by_key NedborKommune.verdi v ks
  · exact List.perm_insertionSort _ ks
  · exact List.sorted_insertionSort _ ks
  · exact filter_insertionSort_by_key TempKommune.sving v ks
  · decide

end WeatherMonitor
